import Mathlib

/-!
# Verification of the HealthGuard intervention-simulation and recommendation core

Shallow embedding of the HealthGuard backend (Python sources under
`backend/`) in Lean 4, together with theorems settling the specification
claims about the simulate endpoint, the guideline recommender, the risk
predictor guard and the cost-benefit comparator.

Numeric values are embedded as rationals (`ℚ`); Python floats in the
relevant code paths only ever undergo multiplication by fixed decimal
constants and order comparisons, both of which the rationals model
faithfully.  The scikit-learn classifier and the `StandardScaler` are
external black boxes; following the architecture description they are
modelled as an injected deterministic oracle `Patient → ℚ` producing the
`risk_score` (the composition of scaling and `RiskPredictor.predict`).
-/

namespace HealthGuard

/-- The 13-field patient record of `api/models.py` (`PatientInput`).
Float-typed fields are rationals, int-typed fields are integers, exactly
as declared by the pydantic model. -/
structure Patient where
  age : ℚ
  sex : ℤ
  cp : ℤ
  trestbps : ℚ
  chol : ℚ
  fbs : ℤ
  restecg : ℤ
  thalach : ℚ
  exang : ℤ
  oldpeak : ℚ
  slope : ℤ
  ca : ℤ
  thal : ℤ
deriving DecidableEq

/-- The boundary validation ranges declared on `PatientInput`
(`api/models.py`, `Field(..., ge=..., le=...)`). -/
def Patient.valid (p : Patient) : Prop :=
  0 ≤ p.age ∧ p.age ≤ 120 ∧
  0 ≤ p.sex ∧ p.sex ≤ 1 ∧
  1 ≤ p.cp ∧ p.cp ≤ 4 ∧
  50 ≤ p.trestbps ∧ p.trestbps ≤ 250 ∧
  100 ≤ p.chol ∧ p.chol ≤ 600 ∧
  0 ≤ p.fbs ∧ p.fbs ≤ 1 ∧
  0 ≤ p.restecg ∧ p.restecg ≤ 2 ∧
  50 ≤ p.thalach ∧ p.thalach ≤ 250 ∧
  0 ≤ p.exang ∧ p.exang ≤ 1 ∧
  0 ≤ p.oldpeak ∧ p.oldpeak ≤ 10 ∧
  1 ≤ p.slope ∧ p.slope ≤ 3 ∧
  0 ≤ p.ca ∧ p.ca ≤ 3 ∧
  3 ≤ p.thal ∧ p.thal ≤ 7

instance (p : Patient) : Decidable p.valid := by
  unfold Patient.valid; infer_instance

/-- The four modifiable metrics extracted by the simulate endpoint
(`current_metrics` / `optimized_metrics` in `api/main.py`). -/
structure Metrics where
  trestbps : ℚ
  chol : ℚ
  thalach : ℚ
  oldpeak : ℚ
deriving DecidableEq

/-- Metric extraction performed by `simulate_intervention` on a raw
patient row. -/
def Patient.metrics (p : Patient) : Metrics :=
  ⟨p.trestbps, p.chol, p.thalach, p.oldpeak⟩

/-- The inline intervention-effect transformation of the simulate
endpoint (`api/main.py`, `simulate_intervention`, the `if request.action`
chain).  Fixed percentage multipliers on the raw values; all other fields
pass through unchanged.  An action id matching no branch leaves the row
unchanged (the pydantic boundary restricts `action` to 0–4). -/
def applyAction (p : Patient) (action : ℕ) : Patient :=
  match action with
  | 1 => { p with trestbps := 19/20 * p.trestbps,   -- 5% BP reduction
                  chol := 9/10 * p.chol,            -- 10% cholesterol reduction
                  thalach := 21/20 * p.thalach }    -- 5% improved max HR
  | 2 => { p with trestbps := 9/10 * p.trestbps,    -- 10% BP reduction
                  chol := 17/20 * p.chol }          -- 15% cholesterol reduction
  | 3 => { p with trestbps := 17/20 * p.trestbps,   -- 15% BP reduction
                  chol := 4/5 * p.chol,             -- 20% cholesterol reduction
                  thalach := 27/25 * p.thalach,     -- 8% improved max HR
                  oldpeak := 9/10 * p.oldpeak }     -- 10% reduced ST depression
  | 4 => { p with trestbps := 4/5 * p.trestbps,     -- 20% BP reduction
                  chol := 3/4 * p.chol,             -- 25% cholesterol reduction
                  thalach := 11/10 * p.thalach,     -- 10% improved max HR
                  oldpeak := 4/5 * p.oldpeak }      -- 20% reduced ST depression
  | _ => p                                          -- 0: Monitor Only (no change)

/-- Response record of the simulate endpoint (`HealthStatus` in
`api/models.py`; the optional explanation fields are not populated by
`simulate_intervention` and are omitted). -/
structure HealthStatus where
  current_metrics : Metrics
  optimized_metrics : Metrics
  current_risk : ℚ
  expected_risk : ℚ
  risk_reduction : ℚ
deriving DecidableEq

/-- The simulate endpoint (`api/main.py`, `simulate_intervention`):
predict current risk, transform the raw row with `applyAction`,
re-predict, and report both metric sets and both risks verbatim.  The
oracle argument is the composition of the `StandardScaler` and
`RiskPredictor.predict` (deterministic). -/
def simulate_intervention (oracle : Patient → ℚ) (p : Patient) (action : ℕ) :
    HealthStatus :=
  let modified := applyAction p action
  let current_risk := oracle p
  let new_risk := oracle modified
  { current_metrics := p.metrics
    optimized_metrics := modified.metrics
    current_risk := current_risk
    expected_risk := new_risk
    risk_reduction := current_risk - new_risk }

/-! ## Guideline recommender (`ml/guideline_recommender.py`) -/

/-- `RISK_THRESHOLDS` of `ml/guideline_recommender.py`. -/
def RISK_THRESHOLDS_very_low : ℚ := 15
def RISK_THRESHOLDS_low : ℚ := 30
def RISK_THRESHOLDS_medium : ℚ := 50
def RISK_THRESHOLDS_high : ℚ := 70

/-- `SEVERE_RISK_FACTORS` thresholds. -/
def SEVERE_trestbps : ℚ := 160
def SEVERE_chol : ℚ := 280
def SEVERE_oldpeak : ℚ := 2

/-- `MODERATE_RISK_FACTORS` thresholds. -/
def MODERATE_trestbps : ℚ := 140
def MODERATE_chol : ℚ := 240
def MODERATE_oldpeak : ℚ := 1

/-- One entry of the human-readable `details` list built by
`_count_risk_factors`; the interpolated display strings are
presentation-only and are represented by tags. -/
inductive RiskFactorDetail where
  | severeHypertension
  | moderateHypertension
  | veryHighCholesterol
  | highCholesterol
  | significantSTDepression
  | moderateSTDepression
  | exerciseInducedAngina
  | multipleVesselDisease
  | vesselDisease
deriving DecidableEq

/-- Result of `_count_risk_factors`. -/
structure RiskFactors where
  severe : ℕ
  moderate : ℕ
  details : List RiskFactorDetail
deriving DecidableEq

/-- `GuidelineRecommender._count_risk_factors`, checked on the raw
(denormalized) patient row: severe supersedes moderate for `trestbps`,
`chol` and `oldpeak` (an `elif`); `exang == 1` counts one moderate
factor; `ca ≥ 3` is severe, else `ca ≥ 1` moderate.  All 13 columns are
present on a `Patient`, so every `in data_to_check.columns` guard is
taken. -/
def count_risk_factors (p : Patient) : RiskFactors :=
  let s0 : ℕ := 0
  let m0 : ℕ := 0
  let d0 : List RiskFactorDetail := []
  -- blood pressure
  let (s1, m1, d1) :=
    if SEVERE_trestbps ≤ p.trestbps then
      (s0 + 1, m0, d0 ++ [RiskFactorDetail.severeHypertension])
    else if MODERATE_trestbps ≤ p.trestbps then
      (s0, m0 + 1, d0 ++ [RiskFactorDetail.moderateHypertension])
    else (s0, m0, d0)
  -- cholesterol
  let (s2, m2, d2) :=
    if SEVERE_chol ≤ p.chol then
      (s1 + 1, m1, d1 ++ [RiskFactorDetail.veryHighCholesterol])
    else if MODERATE_chol ≤ p.chol then
      (s1, m1 + 1, d1 ++ [RiskFactorDetail.highCholesterol])
    else (s1, m1, d1)
  -- ST depression (oldpeak)
  let (s3, m3, d3) :=
    if SEVERE_oldpeak ≤ p.oldpeak then
      (s2 + 1, m2, d2 ++ [RiskFactorDetail.significantSTDepression])
    else if MODERATE_oldpeak ≤ p.oldpeak then
      (s2, m2 + 1, d2 ++ [RiskFactorDetail.moderateSTDepression])
    else (s2, m2, d2)
  -- exercise-induced angina
  let (s4, m4, d4) :=
    if p.exang = 1 then (s3, m3 + 1, d3 ++ [RiskFactorDetail.exerciseInducedAngina])
    else (s3, m3, d3)
  -- major vessels colored by fluoroscopy
  let (s5, m5, d5) :=
    if 3 ≤ p.ca then (s4 + 1, m4, d4 ++ [RiskFactorDetail.multipleVesselDisease])
    else if 1 ≤ p.ca then (s4, m4 + 1, d4 ++ [RiskFactorDetail.vesselDisease])
    else (s4, m4, d4)
  ⟨s5, m5, d5⟩

/-- `GuidelineRecommender._get_base_recommendation`: half-open risk-score
bands with cut points 15 / 30 / 50 / 70. -/
def get_base_recommendation (risk_score : ℚ) : ℕ :=
  if risk_score < RISK_THRESHOLDS_very_low then 0        -- Monitor Only
  else if risk_score < RISK_THRESHOLDS_low then 1        -- Lifestyle Intervention
  else if risk_score < RISK_THRESHOLDS_medium then 2     -- Single Medication
  else if risk_score < RISK_THRESHOLDS_high then 3       -- Combination Therapy
  else 4                                                 -- Intensive Treatment

/-- Escalation reasons appended by `_apply_escalation_logic`; the
interpolated display strings are presentation-only and represented by
tags. -/
inductive EscalationReason where
  | multipleSevere
  | severeWithModerates
  | highRiskNeedsIntervention
  | veryHighRiskIntensive
  | borderlineWithFactors
deriving DecidableEq

/-- Context fixed throughout one run of `_apply_escalation_logic`:
the base recommendation, the risk score and the risk-factor tally. -/
structure EscalationCtx where
  base_action : ℕ
  risk_score : ℚ
  severe : ℕ
  moderate : ℕ

/-- Edge cases 1 and 2 of `_apply_escalation_logic` (an `if`/`elif`
pair): ≥2 severe factors escalate to combination therapy when the base
action is below 3; otherwise one severe plus ≥2 moderate factors
escalate to single medication when the base action is below 2 and risk
is at least 20. -/
def escalation_step12 (c : EscalationCtx) (fa : ℕ) : ℕ :=
  if 2 ≤ c.severe then
    (if c.base_action < 3 then 3 else fa)
  else if 1 ≤ c.severe ∧ 2 ≤ c.moderate then
    (if c.base_action < 2 ∧ 20 ≤ c.risk_score then 2 else fa)
  else fa

/-- Edge case 3: risk ≥ 50 must not be monitoring only. -/
def escalation_step3 (c : EscalationCtx) (fa : ℕ) : ℕ :=
  if 50 ≤ c.risk_score ∧ fa = 0 then 3 else fa

/-- Edge case 4: risk ≥ 70 with a tier below 3 forces intensive
treatment. -/
def escalation_step4 (c : EscalationCtx) (fa : ℕ) : ℕ :=
  if 70 ≤ c.risk_score ∧ fa < 3 then 4 else fa

/-- Edge case 5: borderline risk (25 ≤ risk < 35) with base action 1 and
significant factors sets the tier to 2.  Note the guard reads
`base_action`, not the current tier, and the assignment is an
unconditional overwrite. -/
def escalation_step5 (c : EscalationCtx) (fa : ℕ) : ℕ :=
  if (25 ≤ c.risk_score ∧ c.risk_score < 35) ∧ c.base_action = 1 ∧
      (1 ≤ c.severe ∨ 3 ≤ c.moderate) then 2
  else fa

/-- `GuidelineRecommender._apply_escalation_logic`: the five edge-case
rules applied in source order to the mutable `final_action`, collecting
the reasons for each applied rule. -/
def apply_escalation_logic (base_action : ℕ) (risk_score : ℚ)
    (severe moderate : ℕ) : ℕ × List EscalationReason :=
  let fa0 := base_action
  let rs0 : List EscalationReason := []
  -- Edge case 1: multiple severe risk factors / Edge case 2 (elif)
  let (fa1, rs1) :=
    if 2 ≤ severe then
      (if base_action < 3 then (3, rs0 ++ [EscalationReason.multipleSevere])
       else (fa0, rs0))
    else if 1 ≤ severe ∧ 2 ≤ moderate then
      (if base_action < 2 ∧ 20 ≤ risk_score then
        (2, rs0 ++ [EscalationReason.severeWithModerates])
       else (fa0, rs0))
    else (fa0, rs0)
  -- Edge case 3: high risk (≥50%) should never be just monitoring
  let (fa2, rs2) :=
    if 50 ≤ risk_score ∧ fa1 = 0 then
      (3, rs1 ++ [EscalationReason.highRiskNeedsIntervention])
    else (fa1, rs1)
  -- Edge case 4: very high risk (≥70%)
  let (fa3, rs3) :=
    if 70 ≤ risk_score ∧ fa2 < 3 then
      (4, rs2 ++ [EscalationReason.veryHighRiskIntensive])
    else (fa2, rs2)
  -- Edge case 5: borderline cases near the low/medium boundary
  let (fa4, rs4) :=
    if (25 ≤ risk_score ∧ risk_score < 35) ∧ base_action = 1 ∧
        (1 ≤ severe ∨ 3 ≤ moderate) then
      (2, rs3 ++ [EscalationReason.borderlineWithFactors])
    else (fa3, rs3)
  (fa4, rs4)

/-- The action chosen by `_apply_escalation_logic` is the composition of
the five rule steps in source order. -/
lemma apply_escalation_logic_eq_steps (base : ℕ) (risk : ℚ)
    (severe moderate : ℕ) :
    (apply_escalation_logic base risk severe moderate).1 =
      (let c : EscalationCtx := ⟨base, risk, severe, moderate⟩
       escalation_step5 c (escalation_step4 c (escalation_step3 c
         (escalation_step12 c base)))) := by
  simp only [apply_escalation_logic, escalation_step12, escalation_step3,
    escalation_step4, escalation_step5]
  split_ifs <;> simp_all

/-! ## Intervention utilities (spec-modelled)

`ml/intervention_utils.py` is imported by `ml/guideline_recommender.py`,
`ml/rl_agent.py`, the analysis scripts and the test suite, but the module
itself is not among the provided sources.  Its two functions are
therefore modelled from the specification (§4.1 and §4.2). -/

/-- Modelled from the spec: base percentage adjustment of resting blood
pressure per action tier (§4.1 step 1, "tier 1 ≈5% BP", "tier 4
≈20–25%"); monotonically increasing magnitude with tier.  The spec
declares the exact constants tunable within the ordering contract. -/
def bp_base_pct : ℕ → ℚ
  | 1 => 1/20
  | 2 => 1/10
  | 3 => 3/20
  | 4 => 1/5
  | _ => 0

/-- Modelled from the spec: base percentage adjustment of cholesterol
per action tier (§4.1 step 1, "tier 1 ≈10% chol", "tier 4 ≈20–25%"). -/
def chol_base_pct : ℕ → ℚ
  | 1 => 1/10
  | 2 => 3/20
  | 3 => 1/5
  | 4 => 1/4
  | _ => 0

/-- Modelled from the spec: proportionate max-heart-rate increase per
action tier (§4.1 step 1). -/
def thalach_base_pct : ℕ → ℚ
  | 1 => 1/20
  | 2 => 7/100
  | 3 => 2/25
  | 4 => 1/10
  | _ => 0

/-- Modelled from the spec: proportionate ST-depression decrease per
action tier (§4.1 step 1). -/
def oldpeak_base_pct : ℕ → ℚ
  | 1 => 1/20
  | 2 => 1/10
  | 3 => 3/20
  | 4 => 1/5
  | _ => 0

/-- Modelled from the spec: severity multiplier (§4.1 step 2) for a
feature where lower values are healthier: the base percentage applies in
full at or above the moderate clinical threshold, is dampened toward
zero within the optimal band, and applies at half strength in
between. -/
def severity_multiplier_high_bad (value moderate_thr optimal_thr : ℚ) : ℚ :=
  if moderate_thr ≤ value then 1
  else if value ≤ optimal_thr then 1/10
  else 1/2

/-- Modelled from the spec: severity multiplier (§4.1 step 2) for a
feature where higher values are healthier (`thalach`). -/
def severity_multiplier_low_bad (value moderate_thr optimal_thr : ℚ) : ℚ :=
  if value ≤ moderate_thr then 1
  else if optimal_thr ≤ value then 1/10
  else 1/2

/-- Clamp a value to a closed interval (§4.1 step 3). -/
def clampQ (lo hi v : ℚ) : ℚ := max lo (min hi v)

/-- Modelled from the spec: detection of already-normalized (z-score
like) input, all feature values roughly within [-3, 3] (§4.1 step 4). -/
def is_normalized_data (p : Patient) : Bool :=
  |p.age| ≤ 3 ∧ |(p.sex : ℚ)| ≤ 3 ∧ |(p.cp : ℚ)| ≤ 3 ∧ |p.trestbps| ≤ 3 ∧
    |p.chol| ≤ 3 ∧ |(p.fbs : ℚ)| ≤ 3 ∧ |(p.restecg : ℚ)| ≤ 3 ∧
    |p.thalach| ≤ 3 ∧ |(p.exang : ℚ)| ≤ 3 ∧ |p.oldpeak| ≤ 3 ∧
    |(p.slope : ℚ)| ≤ 3 ∧ |(p.ca : ℚ)| ≤ 3 ∧ |(p.thal : ℚ)| ≤ 3

/-- Modelled from the spec: `apply_intervention_effects` of
`ml/intervention_utils.py` (absent from the sources), following §4.1:
action 0 returns an unmodified copy; already-normalized data takes the
legacy fixed-percentage path; otherwise each modifiable feature moves by
its tier base percentage scaled by the severity multiplier and is
clamped to a hard clinical floor/ceiling.  Non-modifiable features pass
through unchanged, as does any action id outside 0–4 (rejected at the
boundary). -/
def apply_intervention_effects (p : Patient) (action : ℕ) : Patient :=
  if action = 0 then p
  else if is_normalized_data p then
    { p with trestbps := (1 - bp_base_pct action) * p.trestbps
             chol := (1 - chol_base_pct action) * p.chol
             thalach := (1 + thalach_base_pct action) * p.thalach
             oldpeak := (1 - oldpeak_base_pct action) * p.oldpeak }
  else
    let bp_mult := severity_multiplier_high_bad p.trestbps 140 120
    let chol_mult := severity_multiplier_high_bad p.chol 240 200
    let thalach_mult := severity_multiplier_low_bad p.thalach 140 160
    let oldpeak_mult := severity_multiplier_high_bad p.oldpeak 1 (1/2)
    { p with
        trestbps := clampQ 90 200 ((1 - bp_base_pct action * bp_mult) * p.trestbps)
        chol := clampQ 120 500 ((1 - chol_base_pct action * chol_mult) * p.chol)
        thalach := clampQ 60 220 ((1 + thalach_base_pct action * thalach_mult) * p.thalach)
        oldpeak := clampQ 0 10 ((1 - oldpeak_base_pct action * oldpeak_mult) * p.oldpeak) }

/-- Outward-facing result of `GuidelineRecommender.recommend`
(`ml/guideline_recommender.py`); the static action metadata and the
rationale text are presentation-only and carried by the action index and
the escalation-reason tags. -/
structure GRecommendation where
  action : ℕ
  current_risk : ℚ
  expected_final_risk : ℚ
  expected_risk_reduction : ℚ
  risk_factors : RiskFactors
  escalation_reasons : List EscalationReason
deriving DecidableEq

/-- `GuidelineRecommender.recommend` (`ml/guideline_recommender.py`):
current risk from the oracle, risk-factor tally, base tier, escalation,
expected outcome via `apply_intervention_effects` plus the oracle, and
the monotonicity safeguard capping `expected_risk` at `current_risk`
whenever an active action would raise it.  `denormalized_data` defaults
to the patient data itself and is embedded as the single row `p`. -/
def GuidelineRecommender_recommend (oracle : Patient → ℚ) (p : Patient) :
    GRecommendation :=
  let current_risk := oracle p
  let risk_factors := count_risk_factors p
  let base_action := get_base_recommendation current_risk
  let step := apply_escalation_logic base_action current_risk
    risk_factors.severe risk_factors.moderate
  let action := step.1
  let modified := apply_intervention_effects p action
  let expected_risk_raw := oracle modified
  let expected_risk :=
    if 0 < action ∧ current_risk < expected_risk_raw then current_risk
    else expected_risk_raw
  { action := action
    current_risk := current_risk
    expected_final_risk := expected_risk
    expected_risk_reduction := current_risk - expected_risk
    risk_factors := risk_factors
    escalation_reasons := step.2 }

/-! ## Risk predictor (`ml/risk_predictor.py`) -/

/-- The scikit-learn classifier held by `RiskPredictor.model`, treated
as an external black box: whether it carries the fitted `classes_`
attribute, plus its (deterministic, total) label and class-1 probability
functions on a feature row. -/
structure SkModel where
  has_classes : Bool
  predict_label : List ℚ → Bool
  predict_proba : List ℚ → ℚ

/-- State of a `RiskPredictor` instance: the (possibly absent) fitted
model and the feature names recorded at training. -/
structure RiskPredictorState where
  model : Option SkModel
  feature_names : Option (List String)

/-- Result dictionary of `RiskPredictor.predict`; the
`feature_importance` entry is a sorted copy of static model weights and
is omitted from the embedding. -/
structure PredictResult where
  risk_score : ℚ
  has_disease : Bool
  classification : String
  probability : ℚ

/-- `self.model is None or not hasattr(self.model, classes_)` — the
trainedness guard shared by `predict`, `evaluate` and `save`. -/
def RiskPredictorState.is_trained (rp : RiskPredictorState) : Bool :=
  match rp.model with
  | none => false
  | some m => m.has_classes

/-- `RiskPredictor.predict` (`ml/risk_predictor.py`): raises unless the
model is trained and the feature names are set, then demands that the
input columns equal the recorded feature names exactly (same names, same
order, via Python list equality); only then is the model consulted and
the result assembled.  Python exceptions are embedded as
`Except.error`. -/
def RiskPredictor_predict (rp : RiskPredictorState) (columns : List String)
    (row : List ℚ) : Except String PredictResult :=
  match rp.model with
  | none => Except.error "Model has not been trained yet. Call train() first."
  | some m =>
    if m.has_classes = false then
      Except.error "Model has not been trained yet. Call train() first."
    else
      match rp.feature_names with
      | none => Except.error "Feature names not set. Model may not be trained properly."
      | some names =>
        if columns ≠ names then
          Except.error "Feature mismatch."
        else
          let disease_proba := m.predict_proba row
          let risk_score := disease_proba * 100
          let risk_class :=
            if risk_score < 30 then "Low Risk"
            else if risk_score < 70 then "Medium Risk"
            else "High Risk"
          Except.ok
            { risk_score := risk_score
              has_disease := m.predict_label row
              classification := risk_class
              probability := disease_proba }

/-! ## Cost-benefit comparator (`ml/recommendation_engine.py`) -/

/-- One value of the `intervention_results` argument of
`InterventionRecommender.recommend_intervention`, per its declared type
`Dict[int, Dict[str, float]]` with keys `new_risk`, `risk_reduction`,
`pct_reduction`. -/
structure InterventionResult where
  new_risk : ℚ
  risk_reduction : ℚ
  pct_reduction : ℚ
deriving DecidableEq

/-- Static metadata of one entry of
`InterventionRecommender.INTERVENTIONS`. -/
structure InterventionInfo where
  name : String
  description : String
  cost : String
  side_effects : String
  monitoring : String
deriving DecidableEq

/-- `InterventionRecommender.INTERVENTIONS`: a dict keyed by the four
active action ids 1–4 (no entry for action 0, Monitor Only); dict lookup
on any other key raises `KeyError`, embedded as `none`. -/
def INTERVENTIONS : ℕ → Option InterventionInfo
  | 1 => some ⟨"Lifestyle Modifications", "Diet, exercise, stress management",
      "Low", "Minimal", "Self-monitoring"⟩
  | 2 => some ⟨"Single Medication", "BP medication OR statin therapy",
      "Low-Moderate", "Low", "Quarterly check-ups"⟩
  | 3 => some ⟨"Combination Therapy", "BP medication AND statin therapy",
      "Moderate", "Moderate", "Monthly check-ups initially"⟩
  | 4 => some ⟨"Intensive Treatment", "Multi-drug therapy with close monitoring",
      "High", "Higher risk", "Frequent monitoring required"⟩
  | _ => none

/-- The primary/alternative action pair chosen from the baseline-risk
band table in `recommend_intervention` (≥70, ≥50, ≥30, ≥15, else). -/
def primary_alternative (baseline_risk : ℚ) : ℕ × ℕ :=
  if 70 ≤ baseline_risk then (4, 3)
  else if 50 ≤ baseline_risk then (3, 4)
  else if 30 ≤ baseline_risk then (3, 2)
  else if 15 ≤ baseline_risk then (2, 3)
  else (1, 2)

/-- `InterventionRecommender._get_risk_tier`. -/
def get_risk_tier (risk : ℚ) : String :=
  if 70 ≤ risk then "Very High Risk"
  else if 50 ≤ risk then "High Risk"
  else if 30 ≤ risk then "Moderate Risk"
  else if 15 ≤ risk then "Low-Moderate Risk"
  else "Low Risk"

/-- One element of the `all_options` list assembled by
`recommend_intervention`. -/
structure InterventionOption where
  action_id : ℕ
  info : InterventionInfo
  result : InterventionResult
  is_recommended : Bool
  is_alternative : Bool
deriving DecidableEq

/-- The options-building loop of `recommend_intervention`: for each
entry (in ascending key order), look the action id up in
`INTERVENTIONS`; a missing key raises `KeyError` at that point, aborting
the whole call. -/
def build_options (primary alternative : ℕ) :
    List (ℕ × InterventionResult) → Except String (List InterventionOption)
  | [] => Except.ok []
  | (action_id, result) :: rest =>
    match INTERVENTIONS action_id with
    | none => Except.error "KeyError"
    | some info => do
      let tail ← build_options primary alternative rest
      Except.ok ({ action_id := action_id
                   info := info
                   result := result
                   is_recommended := action_id = primary
                   is_alternative := action_id = alternative } :: tail)

/-- Return value of `recommend_intervention`; the interpolated rationale
text is presentation-only and determined by the risk band. -/
structure ComparisonResult where
  recommended_action : ℕ
  recommendation_name : String
  recommendation_description : String
  alternative_action : ℕ
  alternative_name : String
  all_options : List InterventionOption
  baseline_risk : ℚ
  risk_tier : String
deriving DecidableEq

/-- `InterventionRecommender.recommend_intervention`
(`ml/recommendation_engine.py`): choose primary/alternative from the
baseline-risk band table, then build the options list over the
intervention results in ascending key order (`sorted(...keys())`),
looking every key up in `INTERVENTIONS`; the final dictionary also looks
up the primary and alternative ids.  The input dict is embedded as an
association list; any key outside 1–4 surfaces as `Except.error`
(`KeyError`). -/
def recommend_intervention (baseline_risk : ℚ)
    (intervention_results : List (ℕ × InterventionResult)) :
    Except String ComparisonResult :=
  let pa := primary_alternative baseline_risk
  let sorted_results :=
    intervention_results.mergeSort (fun a b => a.1 ≤ b.1)
  do
    let options ← build_options pa.1 pa.2 sorted_results
    match INTERVENTIONS pa.1, INTERVENTIONS pa.2 with
    | some primary_info, some alternative_info =>
      Except.ok
        { recommended_action := pa.1
          recommendation_name := primary_info.name
          recommendation_description := primary_info.description
          alternative_action := pa.2
          alternative_name := alternative_info.name
          all_options := options
          baseline_risk := baseline_risk
          risk_tier := get_risk_tier baseline_risk }
    | _, _ => Except.error "KeyError"

/-! ## Concrete inputs used by witnesses and counterexamples -/

/-- The documentation example patient of `api/models.py`
(`json_schema_extra`), also the end-to-end scenario patient of §8. -/
def examplePatient : Patient :=
  { age := 63, sex := 1, cp := 3, trestbps := 145, chol := 233, fbs := 1,
    restecg := 0, thalach := 150, exang := 0, oldpeak := 23/10, slope := 2,
    ca := 0, thal := 6 }

/-- A patient passing boundary validation whose resting blood pressure
is 100 mm Hg. -/
def normalBpPatient : Patient := { examplePatient with trestbps := 100 }

/-- A patient with exactly two severe risk factors (BP 170, cholesterol
290) and no moderate ones. -/
def severeBorderlinePatient : Patient :=
  { examplePatient with trestbps := 170, chol := 290, oldpeak := 1/2 }

/-- An oracle that reports risk 60 on `examplePatient` and risk 65 on
every other feature vector: a deterministic model for which the
post-intervention prediction exceeds the baseline (the paradox case of
§4.2). -/
def paradoxOracle : Patient → ℚ :=
  fun q => if q = examplePatient then 60 else 65

/-! ## Theorems for the claims -/

/-- Helper: magnitude of a downscaling `c * x` against `x ≥ 0`. -/
lemma abs_scale_sub_of_le_one (x c : ℚ) (hx : 0 ≤ x) (hc : c ≤ 1) :
    |c * x - x| = (1 - c) * x := by
  rw [abs_of_nonpos (by nlinarith)]; ring

/-- Helper: magnitude of an upscaling `c * x` against `x ≥ 0`. -/
lemma abs_scale_sub_of_one_le (x c : ℚ) (hx : 0 ≤ x) (hc : 1 ≤ c) :
    |c * x - x| = (c - 1) * x := by
  rw [abs_of_nonneg (by nlinarith)]; ring

/-- Claim C8 (confirmed): action 0 (Monitor Only) is the identity on the
feature vector, so the simulate endpoint returns `optimized_metrics`
identical to `current_metrics`. -/
theorem C8_action0_identity (p : Patient) (oracle : Patient → ℚ) :
    applyAction p 0 = p ∧
      (simulate_intervention oracle p 0).optimized_metrics =
        (simulate_intervention oracle p 0).current_metrics :=
  ⟨rfl, rfl⟩

/-- Claim C7 (confirmed): the base tier lookup buckets the risk score
into half-open bands with cut points 15 / 30 / 50 / 70, a boundary value
belonging to the upper tier; in particular 15.0 gives tier 1, 69.9 gives
tier 3 and 70.0 gives tier 4. -/
theorem C7_base_tier_lookup (r : ℚ) :
    (r < 15 → get_base_recommendation r = 0) ∧
    (15 ≤ r → r < 30 → get_base_recommendation r = 1) ∧
    (30 ≤ r → r < 50 → get_base_recommendation r = 2) ∧
    (50 ≤ r → r < 70 → get_base_recommendation r = 3) ∧
    (70 ≤ r → get_base_recommendation r = 4) ∧
    get_base_recommendation 15 = 1 ∧
    get_base_recommendation (699/10) = 3 ∧
    get_base_recommendation 70 = 4 := by
  unfold get_base_recommendation RISK_THRESHOLDS_very_low RISK_THRESHOLDS_low
    RISK_THRESHOLDS_medium RISK_THRESHOLDS_high
  refine ⟨?_, ?_, ?_, ?_, ?_, by norm_num, by norm_num, by norm_num⟩ <;>
    intros <;> split_ifs <;> first | rfl | linarith

/-- Witness for C7 at the concrete risk score 20. -/
theorem C7_base_tier_lookup_witness :
    (15 : ℚ) ≤ 20 ∧ (20 : ℚ) < 30 ∧ get_base_recommendation 20 = 1 :=
  ⟨by norm_num, by norm_num,
    (C7_base_tier_lookup 20).2.1 (by norm_num) (by norm_num)⟩

/-- Claim C1 (code bug): the simulate endpoint applies no monotonicity
safeguard — with an oracle whose post-intervention prediction exceeds
the baseline, the response reports `expected_risk` above `current_risk`
and a negative `risk_reduction` for the active action 1, contradicting
the repository's own endpoint tests (`risk_reduction >= 0`,
`expected_risk <= current_risk`). -/
theorem C1_simulate_risk_can_increase :
    (simulate_intervention paradoxOracle examplePatient 1).current_risk = 60 ∧
    (simulate_intervention paradoxOracle examplePatient 1).expected_risk = 65 ∧
    (simulate_intervention paradoxOracle examplePatient 1).current_risk <
      (simulate_intervention paradoxOracle examplePatient 1).expected_risk ∧
    (simulate_intervention paradoxOracle examplePatient 1).risk_reduction < 0 := by
  have hne : applyAction examplePatient 1 ≠ examplePatient := by
    intro h
    have h2 := congrArg Patient.trestbps h
    norm_num [applyAction, examplePatient] at h2
  refine ⟨?_, ?_, ?_, ?_⟩ <;>
    simp only [simulate_intervention, paradoxOracle, if_pos rfl, if_neg hne] <;>
    norm_num

/-- Claim C2 (code bug): in the paradox case the simulate endpoint does
surface the simulated (improved) metrics, but it does not cap
`expected_risk` at `current_risk` — the capping half of the claimed
behavior is absent from `simulate_intervention`. -/
theorem C2_metrics_surfaced_risk_uncapped :
    (simulate_intervention paradoxOracle examplePatient 1).optimized_metrics ≠
      (simulate_intervention paradoxOracle examplePatient 1).current_metrics ∧
    (simulate_intervention paradoxOracle examplePatient 1).current_risk <
      (simulate_intervention paradoxOracle examplePatient 1).expected_risk := by
  have hne : applyAction examplePatient 1 ≠ examplePatient := by
    intro h
    have h2 := congrArg Patient.trestbps h
    norm_num [applyAction, examplePatient] at h2
  constructor
  · intro h
    have h2 := congrArg Metrics.trestbps h
    simp only [simulate_intervention, Patient.metrics] at h2
    norm_num [applyAction, examplePatient] at h2
  · simp only [simulate_intervention, paradoxOracle, if_pos rfl, if_neg hne]
    norm_num

/-- Claim C3 (code bug): escalation rule e lowers an established tier.
For a patient with exactly two severe factors at risk 25.0 the
multiple-severe rule raises the tier to 3, after which the borderline
rule — keyed on `base_action == 1`, not on the current tier —
unconditionally overwrites it with 2, so the recommender returns tier 2
below the tier 3 established by the earlier rule. -/
theorem C3_escalation_rule5_lowers_tier :
    (count_risk_factors severeBorderlinePatient).severe = 2 ∧
    (count_risk_factors severeBorderlinePatient).moderate = 0 ∧
    escalation_step12 ⟨1, 25, 2, 0⟩ 1 = 3 ∧
    escalation_step5 ⟨1, 25, 2, 0⟩ 3 = 2 ∧
    (apply_escalation_logic 1 25 2 0).1 = 2 ∧
    (GuidelineRecommender_recommend (fun _ => 25) severeBorderlinePatient).action
      = 2 := by
  have hfactors : count_risk_factors severeBorderlinePatient =
      ⟨2, 0, [RiskFactorDetail.severeHypertension,
        RiskFactorDetail.veryHighCholesterol]⟩ := by
    norm_num [count_risk_factors, severeBorderlinePatient, examplePatient,
      SEVERE_trestbps, SEVERE_chol, SEVERE_oldpeak, MODERATE_trestbps,
      MODERATE_chol, MODERATE_oldpeak]
  refine ⟨by rw [hfactors], by rw [hfactors], by decide, by decide, by decide, ?_⟩
  simp only [GuidelineRecommender_recommend, hfactors]
  norm_num [get_base_recommendation, apply_escalation_logic,
    RISK_THRESHOLDS_very_low, RISK_THRESHOLDS_low, RISK_THRESHOLDS_medium,
    RISK_THRESHOLDS_high]

/-- Counterexample to claim C4 as stated: on the example patient the
magnitude of the `thalach` change under action 2 (zero — action 2
targets only blood pressure and cholesterol) is strictly smaller than
under action 1 (a 5% increase). -/
theorem C4_counterexample :
    |(applyAction examplePatient 2).thalach - examplePatient.thalach| <
      |(applyAction examplePatient 1).thalach - examplePatient.thalach| := by
  norm_num [applyAction, examplePatient]

/-- Claim C4 (corrected): for nonnegative feature values the magnitude
of change is monotone in the action id for `trestbps`, `chol` and
`oldpeak` over all k ∈ {1,2,3}, and for `thalach` over k ∈ {2,3}; the
step from action 1 to action 2 breaks monotonicity for `thalach`
(action 2 leaves it unchanged). -/
theorem C4_magnitude_monotone (p : Patient) (htr : 0 ≤ p.trestbps)
    (hch : 0 ≤ p.chol) (hth : 0 ≤ p.thalach) (hop : 0 ≤ p.oldpeak)
    (k : ℕ) (hk1 : 1 ≤ k) (hk3 : k ≤ 3) :
    |(applyAction p k).trestbps - p.trestbps| ≤
        |(applyAction p (k+1)).trestbps - p.trestbps| ∧
    |(applyAction p k).chol - p.chol| ≤
        |(applyAction p (k+1)).chol - p.chol| ∧
    |(applyAction p k).oldpeak - p.oldpeak| ≤
        |(applyAction p (k+1)).oldpeak - p.oldpeak| ∧
    (2 ≤ k → |(applyAction p k).thalach - p.thalach| ≤
        |(applyAction p (k+1)).thalach - p.thalach|) := by
  interval_cases k
  · refine ⟨?_, ?_, ?_, ?_⟩
    · simp only [applyAction]
      rw [abs_scale_sub_of_le_one _ _ htr (by norm_num),
        abs_scale_sub_of_le_one _ _ htr (by norm_num)]
      linarith
    · simp only [applyAction]
      rw [abs_scale_sub_of_le_one _ _ hch (by norm_num),
        abs_scale_sub_of_le_one _ _ hch (by norm_num)]
      linarith
    · simp only [applyAction, sub_self, abs_zero]
      positivity
    · omega
  · refine ⟨?_, ?_, ?_, fun _ => ?_⟩
    · simp only [applyAction]
      rw [abs_scale_sub_of_le_one _ _ htr (by norm_num),
        abs_scale_sub_of_le_one _ _ htr (by norm_num)]
      linarith
    · simp only [applyAction]
      rw [abs_scale_sub_of_le_one _ _ hch (by norm_num),
        abs_scale_sub_of_le_one _ _ hch (by norm_num)]
      linarith
    · simp only [applyAction, sub_self, abs_zero]
      rw [abs_scale_sub_of_le_one _ _ hop (by norm_num)]
      positivity
    · simp only [applyAction, sub_self, abs_zero]
      rw [abs_scale_sub_of_one_le _ _ hth (by norm_num)]
      positivity
  · refine ⟨?_, ?_, ?_, fun _ => ?_⟩
    · simp only [applyAction]
      rw [abs_scale_sub_of_le_one _ _ htr (by norm_num),
        abs_scale_sub_of_le_one _ _ htr (by norm_num)]
      linarith
    · simp only [applyAction]
      rw [abs_scale_sub_of_le_one _ _ hch (by norm_num),
        abs_scale_sub_of_le_one _ _ hch (by norm_num)]
      linarith
    · simp only [applyAction]
      rw [abs_scale_sub_of_le_one _ _ hop (by norm_num),
        abs_scale_sub_of_le_one _ _ hop (by norm_num)]
      linarith
    · simp only [applyAction]
      rw [abs_scale_sub_of_one_le _ _ hth (by norm_num),
        abs_scale_sub_of_one_le _ _ hth (by norm_num)]
      linarith

/-- Witness for C4 at the example patient with k = 2. -/
theorem C4_magnitude_monotone_witness :
    |(applyAction examplePatient 2).trestbps - examplePatient.trestbps| ≤
        |(applyAction examplePatient 3).trestbps - examplePatient.trestbps| ∧
    |(applyAction examplePatient 2).chol - examplePatient.chol| ≤
        |(applyAction examplePatient 3).chol - examplePatient.chol| ∧
    |(applyAction examplePatient 2).oldpeak - examplePatient.oldpeak| ≤
        |(applyAction examplePatient 3).oldpeak - examplePatient.oldpeak| ∧
    (2 ≤ 2 → |(applyAction examplePatient 2).thalach - examplePatient.thalach| ≤
        |(applyAction examplePatient 3).thalach - examplePatient.thalach|) :=
  C4_magnitude_monotone examplePatient (by norm_num [examplePatient])
    (by norm_num [examplePatient]) (by norm_num [examplePatient])
    (by norm_num [examplePatient]) 2 (by norm_num) (by norm_num)

/-- Counterexample to claim C5 as stated: the patient with resting blood
pressure 100 passes boundary validation, yet action 4 produces a
modified `trestbps` of 80, below the clinical floor of roughly 90 — the
endpoint transformation performs no clamping. -/
theorem C5_counterexample :
    normalBpPatient.valid ∧ (applyAction normalBpPatient 4).trestbps < 90 := by
  refine ⟨?_, ?_⟩ <;>
    norm_num [Patient.valid, applyAction, normalBpPatient, examplePatient]

/-- Claim C5 (corrected): the endpoint transformation does not clamp to
the clinical bound table; for validated input it only keeps each
modified feature inside the validation range scaled by the extreme
multipliers — `trestbps ∈ [40, 250]`, `chol ∈ [75, 600]`,
`thalach ∈ [50, 275]`, `oldpeak ∈ [0, 10]` — and values outside the
clinical band (such as `trestbps` below 90) do occur. -/
theorem C5_derived_bounds (p : Patient) (hv : p.valid) (a : ℕ) :
    40 ≤ (applyAction p a).trestbps ∧ (applyAction p a).trestbps ≤ 250 ∧
    75 ≤ (applyAction p a).chol ∧ (applyAction p a).chol ≤ 600 ∧
    50 ≤ (applyAction p a).thalach ∧ (applyAction p a).thalach ≤ 275 ∧
    0 ≤ (applyAction p a).oldpeak ∧ (applyAction p a).oldpeak ≤ 10 := by
  obtain ⟨-, -, -, -, -, -, htr1, htr2, hch1, hch2, -, -, -, -, hth1, hth2,
    -, -, hop1, hop2, -⟩ := hv
  rcases a with _ | _ | _ | _ | _ | n <;>
    · simp only [applyAction]
      refine ⟨?_, ?_, ?_, ?_, ?_, ?_, ?_, ?_⟩ <;> linarith

/-- Witness for C5 (corrected) at the example patient with action 4. -/
theorem C5_derived_bounds_witness :
    40 ≤ (applyAction examplePatient 4).trestbps ∧
    (applyAction examplePatient 4).trestbps ≤ 250 ∧
    75 ≤ (applyAction examplePatient 4).chol ∧
    (applyAction examplePatient 4).chol ≤ 600 ∧
    50 ≤ (applyAction examplePatient 4).thalach ∧
    (applyAction examplePatient 4).thalach ≤ 275 ∧
    0 ≤ (applyAction examplePatient 4).oldpeak ∧
    (applyAction examplePatient 4).oldpeak ≤ 10 :=
  C5_derived_bounds examplePatient
    (by norm_num [Patient.valid, examplePatient]) 4

/-- Helper: action 0 leaves the patient unchanged in the spec-modelled
intervention utilities. -/
lemma apply_intervention_effects_zero (p : Patient) :
    apply_intervention_effects p 0 = p := rfl

/-- Helper: behavior of the monotonicity cap of
`GuidelineRecommender.recommend` on arbitrary action / current / raw
risk values. -/
lemma cap_spec (act : ℕ) (cur raw : ℚ) :
    (1 ≤ act → (if 0 < act ∧ cur < raw then cur else raw) ≤ cur) ∧
    (act = 0 → (if 0 < act ∧ cur < raw then cur else raw) = raw) := by
  constructor
  · intro h
    split_ifs with hc
    · exact le_refl cur
    · push_neg at hc
      exact hc (by omega)
  · intro h
    subst h
    simp

/-- Claim C6 (confirmed): for every patient and deterministic oracle,
`GuidelineRecommender.recommend` returns `expected_final_risk` at most
`current_risk` (equivalently a nonnegative `expected_risk_reduction`)
whenever the chosen action is at least 1, and exactly `current_risk` for
action 0. -/
theorem C6_recommend_monotone (oracle : Patient → ℚ) (p : Patient) :
    (1 ≤ (GuidelineRecommender_recommend oracle p).action →
      (GuidelineRecommender_recommend oracle p).expected_final_risk ≤
          (GuidelineRecommender_recommend oracle p).current_risk ∧
        0 ≤ (GuidelineRecommender_recommend oracle p).expected_risk_reduction) ∧
    ((GuidelineRecommender_recommend oracle p).action = 0 →
      (GuidelineRecommender_recommend oracle p).expected_final_risk =
        (GuidelineRecommender_recommend oracle p).current_risk) := by
  have hcur : (GuidelineRecommender_recommend oracle p).current_risk =
      oracle p := rfl
  have hexp : (GuidelineRecommender_recommend oracle p).expected_final_risk =
      (if 0 < (GuidelineRecommender_recommend oracle p).action ∧
          oracle p < oracle (apply_intervention_effects p
            (GuidelineRecommender_recommend oracle p).action)
       then oracle p
       else oracle (apply_intervention_effects p
         (GuidelineRecommender_recommend oracle p).action)) := rfl
  have hred : (GuidelineRecommender_recommend oracle p).expected_risk_reduction =
      (GuidelineRecommender_recommend oracle p).current_risk -
        (GuidelineRecommender_recommend oracle p).expected_final_risk := rfl
  constructor
  · intro h1
    have hle := (cap_spec (GuidelineRecommender_recommend oracle p).action
      (oracle p) (oracle (apply_intervention_effects p
        (GuidelineRecommender_recommend oracle p).action))).1 h1
    refine ⟨by rw [hexp, hcur]; exact hle, ?_⟩
    rw [hred, hcur, hexp]
    linarith [hle]
  · intro h0
    have heq := (cap_spec (GuidelineRecommender_recommend oracle p).action
      (oracle p) (oracle (apply_intervention_effects p
        (GuidelineRecommender_recommend oracle p).action))).2 h0
    rw [hexp, hcur, heq, h0, apply_intervention_effects_zero]

/-- Witness for C6 at the example patient, under the constant oracle
reporting risk 60: the chosen action is active and the expected final
risk does not exceed the current risk. -/
theorem C6_recommend_monotone_witness :
    1 ≤ (GuidelineRecommender_recommend (fun _ => (60 : ℚ)) examplePatient).action ∧
    (GuidelineRecommender_recommend (fun _ => (60 : ℚ))
        examplePatient).expected_final_risk ≤
      (GuidelineRecommender_recommend (fun _ => (60 : ℚ))
        examplePatient).current_risk := by
  have hfactors : count_risk_factors examplePatient =
      ⟨1, 1, [RiskFactorDetail.moderateHypertension,
        RiskFactorDetail.significantSTDepression]⟩ := by
    norm_num [count_risk_factors, examplePatient, SEVERE_trestbps, SEVERE_chol,
      SEVERE_oldpeak, MODERATE_trestbps, MODERATE_chol, MODERATE_oldpeak]
  have hact : (GuidelineRecommender_recommend (fun _ => (60 : ℚ))
      examplePatient).action = 3 := by
    simp only [GuidelineRecommender_recommend, hfactors]
    norm_num [get_base_recommendation, apply_escalation_logic,
      RISK_THRESHOLDS_very_low, RISK_THRESHOLDS_low, RISK_THRESHOLDS_medium,
      RISK_THRESHOLDS_high]
  have h1 : 1 ≤ (GuidelineRecommender_recommend (fun _ => (60 : ℚ))
      examplePatient).action := by rw [hact]; norm_num
  exact ⟨h1,
    ((C6_recommend_monotone (fun _ => (60 : ℚ)) examplePatient).1 h1).1⟩

/-- Claim C9 (confirmed): `RiskPredictor.predict` produces a result
exactly when the model is trained (present with fitted classes) and the
input columns equal the recorded feature names — same names in the same
order; any other state or column list yields an error, with no coercion
or reordering. -/
theorem C9_predict_guard (rp : RiskPredictorState) (columns : List String)
    (row : List ℚ) :
    (∃ out, RiskPredictor_predict rp columns row = Except.ok out) ↔
      rp.is_trained = true ∧ rp.feature_names = some columns := by
  rcases rp with ⟨model, names⟩
  rcases model with _ | m
  · simp [RiskPredictor_predict, RiskPredictorState.is_trained]
  · rcases names with _ | names
    · by_cases hc : m.has_classes <;>
        simp [RiskPredictor_predict, RiskPredictorState.is_trained, hc]
    · by_cases hc : m.has_classes
      · by_cases he : columns = names
        · subst he
          simp [RiskPredictor_predict, RiskPredictorState.is_trained, hc]
        · simp [RiskPredictor_predict, RiskPredictorState.is_trained, hc, he,
            eq_comm]
      · simp [RiskPredictor_predict, RiskPredictorState.is_trained, hc]

/-- The 13 feature columns in training order. -/
def featureColumns : List String :=
  ["age", "sex", "cp", "trestbps", "chol", "fbs", "restecg", "thalach",
   "exang", "oldpeak", "slope", "ca", "thal"]

/-- A fitted model stub used by the C9 witness. -/
def demoModel : SkModel :=
  { has_classes := true, predict_label := fun _ => true,
    predict_proba := fun _ => 7/10 }

/-- A trained predictor state used by the C9 witness. -/
def demoPredictor : RiskPredictorState :=
  { model := some demoModel, feature_names := some featureColumns }

/-- Witness for C9: a trained predictor with exactly matching columns
produces a result. -/
theorem C9_predict_guard_witness :
    ∃ out, RiskPredictor_predict demoPredictor featureColumns [] =
      Except.ok out :=
  (C9_predict_guard demoPredictor featureColumns []).mpr ⟨rfl, rfl⟩

/-- Helper: `INTERVENTIONS` has exactly the active action ids 1–4 in its
domain. -/
lemma INTERVENTIONS_isSome (k : ℕ) :
    (INTERVENTIONS k).isSome = true ↔ 1 ≤ k ∧ k ≤ 4 := by
  match k with
  | 0 => simp [INTERVENTIONS]
  | 1 => simp [INTERVENTIONS]
  | 2 => simp [INTERVENTIONS]
  | 3 => simp [INTERVENTIONS]
  | 4 => simp [INTERVENTIONS]
  | (n+5) =>
    have h : INTERVENTIONS (n+5) = none := rfl
    rw [h]
    constructor
    · intro hh
      simp at hh
    · intro hh
      exact absurd hh (by omega)

/-- Helper: the options-building loop succeeds exactly when every listed
action id is in the domain of `INTERVENTIONS`. -/
lemma build_options_ok_iff (primary alt : ℕ)
    (l : List (ℕ × InterventionResult)) :
    (∃ opts, build_options primary alt l = Except.ok opts) ↔
      ∀ e ∈ l, (INTERVENTIONS e.1).isSome = true := by
  induction l with
  | nil => simp [build_options]
  | cons hd tl ih =>
    rcases h : INTERVENTIONS hd.1 with _ | info
    · simp only [build_options, h, List.mem_cons]
      constructor
      · rintro ⟨opts, hopts⟩
        cases hopts
      · intro hall
        have := hall hd (Or.inl rfl)
        rw [h] at this
        cases this
    · rcases htl : build_options primary alt tl with e | tail
      · simp only [build_options, h, htl, List.mem_cons]
        constructor
        · rintro ⟨opts, hopts⟩
          cases hopts
        · intro hall
          have hex : ∃ opts, build_options primary alt tl = Except.ok opts :=
            ih.mpr (fun e he => hall e (Or.inr he))
          rw [htl] at hex
          rcases hex with ⟨_, h2⟩
          cases h2
      · simp only [build_options, h, htl, List.mem_cons]
        constructor
        · rintro -
          rintro e (rfl | he)
          · rw [h]; rfl
          · exact ih.mp ⟨tail, htl⟩ e he
        · rintro -
          exact ⟨_, rfl⟩

/-- Helper: the primary and alternative actions chosen from the
baseline-risk band table always lie in the domain of
`INTERVENTIONS`. -/
lemma primary_alternative_isSome (b : ℚ) :
    (INTERVENTIONS (primary_alternative b).1).isSome = true ∧
    (INTERVENTIONS (primary_alternative b).2).isSome = true := by
  unfold primary_alternative
  split_ifs <;> exact ⟨rfl, rfl⟩

/-- Helper: `recommend_intervention` succeeds exactly when the
options-building loop over the key-sorted results succeeds. -/
lemma recommend_intervention_ok_iff (b : ℚ)
    (results : List (ℕ × InterventionResult)) :
    (∃ out, recommend_intervention b results = Except.ok out) ↔
      (∃ opts, build_options (primary_alternative b).1 (primary_alternative b).2
        (results.mergeSort (fun x y => x.1 ≤ y.1)) = Except.ok opts) := by
  obtain ⟨h1, h2⟩ := primary_alternative_isSome b
  rcases hp : INTERVENTIONS (primary_alternative b).1 with _ | pinfo
  · rw [hp] at h1; cases h1
  rcases ha : INTERVENTIONS (primary_alternative b).2 with _ | ainfo
  · rw [ha] at h2; cases h2
  simp only [recommend_intervention]
  rcases hb : build_options (primary_alternative b).1 (primary_alternative b).2
      (results.mergeSort (fun x y => x.1 ≤ y.1)) with e | opts
  · constructor
    · rintro ⟨out, hout⟩
      exact Except.noConfusion hout
    · rintro ⟨opts, hopts⟩
      exact Except.noConfusion hopts
  · rw [hp, ha]
    constructor
    · rintro -
      exact ⟨opts, rfl⟩
    · rintro -
      exact ⟨_, rfl⟩

/-- Claim C10 (confirmed): `recommend_intervention` succeeds exactly
when every key of the intervention-results map lies in {1, 2, 3, 4};
any other key (in particular 0, Monitor Only) aborts the options loop
with a `KeyError`. -/
theorem C10_active_keys_only (baseline_risk : ℚ)
    (results : List (ℕ × InterventionResult)) :
    (∃ out, recommend_intervention baseline_risk results = Except.ok out) ↔
      ∀ e ∈ results, 1 ≤ e.1 ∧ e.1 ≤ 4 := by
  rw [recommend_intervention_ok_iff, build_options_ok_iff]
  constructor
  · intro h e he
    exact (INTERVENTIONS_isSome e.1).mp
      (h e (((results.mergeSort_perm (fun x y => x.1 ≤ y.1)).mem_iff).mpr he))
  · intro h e he
    exact (INTERVENTIONS_isSome e.1).mpr
      (h e (((results.mergeSort_perm (fun x y => x.1 ≤ y.1)).mem_iff).mp he))

/-- Intervention results used by the C10 witness: keys 1 and 4 only. -/
def demoResults : List (ℕ × InterventionResult) :=
  [(1, ⟨50, 10, 17⟩), (4, ⟨40, 20, 33⟩)]

/-- Witness for C10: with all keys among the active actions the call
succeeds. -/
theorem C10_active_keys_only_witness :
    ∃ out, recommend_intervention 60 demoResults = Except.ok out :=
  (C10_active_keys_only 60 demoResults).mpr (by
    intro e he
    simp only [demoResults, List.mem_cons, List.not_mem_nil, or_false] at he
    rcases he with rfl | rfl <;> exact ⟨by norm_num, by norm_num⟩)

end HealthGuard
